import Mathlib

/-!
Verification of the gdal-geotransform library (src/src/lib.rs).

The library converts between world coordinates and raster pixel indices
via a six-element GDAL geotransform.  We embed the code shallowly:
f64 values become exact rationals (ℚ), the six-element geotransform
array becomes a structure with numbered fields mirroring the array
indices, and the Rust float-to-usize cast (which saturates: values
below 0 become 0, values above usize::MAX become usize::MAX) is made
explicit.  usize is taken to be 64 bits wide.
-/

namespace GdalGeoTransform

/-- World coordinate pair, mirroring geo_types::Coordinate with f64 fields. -/
structure Coordinate where
  x : ℚ
  y : ℚ
deriving DecidableEq, Repr

/-- Axis-aligned rectangle, mirroring geo_types::Rect with min and max corners. -/
structure Rect where
  min : Coordinate
  max : Coordinate
deriving DecidableEq, Repr

/-- Plain constructor of Rect from its two corners, mirroring Rect::new. -/
def Rect.new (rmin rmax : Coordinate) : Rect :=
  { min := rmin, max := rmax }

/-- Six-element geotransform array; field gN mirrors geotransform[N] in the
source, so the GDAL layout is [g0, g1, g2, g3, g4, g5] = [a, b, c, d, e, f]. -/
structure GeoTransform where
  g0 : ℚ
  g1 : ℚ
  g2 : ℚ
  g3 : ℚ
  g4 : ℚ
  g5 : ℚ
deriving DecidableEq, Repr

/-- usize::MAX for the 64-bit targets the crate is built for. -/
def USIZE_MAX : ℕ := 2 ^ 64 - 1

/-- Rust expression pattern used in coordinate_to_pixel: value.floor() as usize.
The as cast from f64 to usize saturates: negative values give 0 and values
above usize::MAX give usize::MAX. -/
def floorAsUsize (v : ℚ) : ℕ :=
  if Int.floor v < 0 then 0
  else if (USIZE_MAX : ℤ) < Int.floor v then USIZE_MAX
  else (Int.floor v).toNat

/-- From rect_from_coordinates in the source: build the normalized rectangle
whose corners are the component-wise min and max of the two inputs, written
with the same conditional expressions as the Rust code. -/
def rect_from_coordinates (c1 c2 : Coordinate) : Rect :=
  Rect.new
    { x := if c1.x > c2.x then c2.x else c1.x
      y := if c1.y > c2.y then c2.y else c1.y }
    { x := if c1.x < c2.x then c2.x else c1.x
      y := if c1.y < c2.y then c2.y else c1.y }

/-- The GeoTransformer struct: forward and inverse geotransform. -/
structure GeoTransformer where
  geotransform : GeoTransform
  inv_geotransform : GeoTransform
deriving DecidableEq, Repr

/-- From GeoTransformer::coordinate_to_pixel: apply the inverse geotransform
to a world coordinate and floor the results, casting each to usize. -/
def GeoTransformer.coordinate_to_pixel (t : GeoTransformer) (coordinate : Coordinate) :
    ℕ × ℕ :=
  (floorAsUsize (t.inv_geotransform.g0 + t.inv_geotransform.g1 * coordinate.x
      + t.inv_geotransform.g2 * coordinate.y),
   floorAsUsize (t.inv_geotransform.g3 + t.inv_geotransform.g4 * coordinate.x
      + t.inv_geotransform.g5 * coordinate.y))

/-- From GeoTransformer::pixel_to_coordinate: apply the forward geotransform
to a pixel index pair. -/
def GeoTransformer.pixel_to_coordinate (t : GeoTransformer) (pixel : ℕ × ℕ) :
    Coordinate :=
  { x := t.geotransform.g0 + t.geotransform.g1 * (pixel.1 : ℚ)
      + t.geotransform.g2 * (pixel.2 : ℚ)
    y := t.geotransform.g3 + t.geotransform.g4 * (pixel.1 : ℚ)
      + t.geotransform.g5 * (pixel.2 : ℚ) }

/-- From GeoTransformer::bounds_from_size: map pixel (0,0) and the size
through pixel_to_coordinate and normalize. -/
def GeoTransformer.bounds_from_size (t : GeoTransformer) (size : ℕ × ℕ) : Rect :=
  let c1 := t.pixel_to_coordinate (0, 0)
  let c2 := t.pixel_to_coordinate size
  rect_from_coordinates c1 c2

/-- Determinant of the 2x2 linear part of a geotransform. -/
def GeoTransform.det (gt : GeoTransform) : ℚ :=
  gt.g1 * gt.g5 - gt.g2 * gt.g4

/-- Modelled from the spec: the inversion routine GDALInvGeoTransform lives in
the external gdal_sys crate, not in this repository. Spec section 4.1 gives
its contract: with det = b*f - c*e, fail when det is zero (or non-finite,
impossible over exact rationals); otherwise return the inverse components
bInv = f/det, cInv = -c/det, eInv = -e/det, fInv = b/det,
aInv = -(bInv*a + cInv*d), dInv = -(eInv*a + fInv*d). -/
def GDALInvGeoTransform (gt : GeoTransform) : Option GeoTransform :=
  let det := gt.g1 * gt.g5 - gt.g2 * gt.g4
  if det = 0 then none
  else
    some
      { g1 := gt.g5 / det
        g2 := -gt.g2 / det
        g4 := -gt.g4 / det
        g5 := gt.g1 / det
        g0 := -((gt.g5 / det) * gt.g0 + (-gt.g2 / det) * gt.g3)
        g3 := -((-gt.g4 / det) * gt.g0 + (gt.g1 / det) * gt.g3) }

/-- From the TryFrom impl: attempt to invert the geotransform; on failure
return the error string of the source, otherwise the assembled transformer. -/
def GeoTransformer.try_from (geotransform : GeoTransform) :
    Except String GeoTransformer :=
  match GDALInvGeoTransform geotransform with
  | none => .error "Could not invert geotransform"
  | some inv_geotransform =>
      .ok { geotransform := geotransform, inv_geotransform := inv_geotransform }

/-! Concrete fixtures used by witnesses and counterexamples. -/

/-- The identity geotransform [0, 1, 0, 0, 0, 1]. -/
def idGT : GeoTransform := ⟨0, 1, 0, 0, 0, 1⟩

/-- The transformer produced by inverting the identity geotransform. -/
def idT : GeoTransformer := ⟨idGT, idGT⟩

/-- Helper: the Rust conditional used for the min corner computes the minimum. -/
theorem if_gt_eq_min (a b : ℚ) : (if a > b then b else a) = min a b := by
  rw [min_def]
  rcases le_or_lt a b with h | h
  · simp [not_lt.mpr h, h]
  · simp [h, not_le.mpr h]

/-- Helper: the Rust conditional used for the max corner computes the maximum. -/
theorem if_lt_eq_max (a b : ℚ) : (if a < b then b else a) = max a b := by
  rw [max_def]
  rcases le_or_lt a b with h | h
  · rcases eq_or_lt_of_le h with rfl | h2
    · simp
    · simp [h2, h]
  · simp [not_lt.mpr h.le, not_le.mpr h]

/-- C1: pixel_to_coordinate applied to any non-negative integer pixel
(col, row) returns the world point
(a + b*col + c*row, d + e*col + f*row) from the stored forward
geotransform [a, b, c, d, e, f], with no restriction to the raster extent. -/
theorem pixel_to_coordinate_affine (t : GeoTransformer) (col row : ℕ) :
    t.pixel_to_coordinate (col, row) =
      { x := t.geotransform.g0 + t.geotransform.g1 * (col : ℚ)
          + t.geotransform.g2 * (row : ℚ)
        y := t.geotransform.g3 + t.geotransform.g4 * (col : ℚ)
          + t.geotransform.g5 * (row : ℚ) } := rfl

/-- C7: pixel_to_coordinate at pixel (0, 0) returns exactly the world point
(a, d) taken from the stored forward geotransform. -/
theorem pixel_to_coordinate_origin (t : GeoTransformer) :
    t.pixel_to_coordinate (0, 0) =
      { x := t.geotransform.g0, y := t.geotransform.g3 } := by
  simp [GeoTransformer.pixel_to_coordinate]

/-- C8: the rectangle returned by bounds_from_size is normalized:
min.x ≤ max.x and min.y ≤ max.y, for every transformer and size. -/
theorem bounds_from_size_normalized (t : GeoTransformer) (size : ℕ × ℕ) :
    (t.bounds_from_size size).min.x ≤ (t.bounds_from_size size).max.x ∧
      (t.bounds_from_size size).min.y ≤ (t.bounds_from_size size).max.y := by
  unfold GeoTransformer.bounds_from_size rect_from_coordinates Rect.new
  refine ⟨?_, ?_⟩ <;> dsimp only <;> split_ifs <;> linarith

/-- C5: bounds_from_size maps exactly the two diagonal pixel corners (0, 0)
and (width, height) to world points c1 and c2 and returns the rectangle with
min = (min c1.x c2.x, min c1.y c2.y) and max = (max c1.x c2.x, max c1.y c2.y). -/
theorem bounds_from_size_two_corners (t : GeoTransformer) (width height : ℕ) :
    t.bounds_from_size (width, height) =
      { min := { x := min (t.pixel_to_coordinate (0, 0)).x
                        (t.pixel_to_coordinate (width, height)).x
                 y := min (t.pixel_to_coordinate (0, 0)).y
                        (t.pixel_to_coordinate (width, height)).y }
        max := { x := max (t.pixel_to_coordinate (0, 0)).x
                        (t.pixel_to_coordinate (width, height)).x
                 y := max (t.pixel_to_coordinate (0, 0)).y
                        (t.pixel_to_coordinate (width, height)).y } } := by
  unfold GeoTransformer.bounds_from_size rect_from_coordinates Rect.new
  dsimp only
  rw [if_gt_eq_min, if_gt_eq_min, if_lt_eq_max, if_lt_eq_max]

/-- C2 counterexample: with the identity transformer (obtained from try_from
on the identity geotransform), the world point (-3/2, -5/2) has floored
inverse image -2 in its first component, yet coordinate_to_pixel returns
(0, 0): the result is not the pair of floors, because the cast to usize
saturates negative values to 0. -/
theorem coordinate_to_pixel_floor_cex :
    GeoTransformer.try_from idGT = Except.ok idT ∧
    Int.floor (idT.inv_geotransform.g0 + idT.inv_geotransform.g1 * (-3/2 : ℚ)
        + idT.inv_geotransform.g2 * (-5/2 : ℚ)) = -2 ∧
    idT.coordinate_to_pixel ⟨-3/2, -5/2⟩ = (0, 0) ∧
    ((0 : ℤ) ≠ -2) := by
  refine ⟨?_, ?_, ?_, by decide⟩
  · simp [GeoTransformer.try_from, GDALInvGeoTransform, idGT, idT]
  · norm_num [idT, idGT]
  · simp [GeoTransformer.coordinate_to_pixel, floorAsUsize, idT, idGT]
    norm_num

/-- C2 amended: whenever both floored inverse-affine components lie inside
the usize range [0, USIZE_MAX], coordinate_to_pixel returns exactly the pair
of floors (floor fx, floor fy); outside that range the usize cast saturates. -/
theorem coordinate_to_pixel_floor_in_range (t : GeoTransformer) (c : Coordinate)
    (hx0 : 0 ≤ Int.floor (t.inv_geotransform.g0 + t.inv_geotransform.g1 * c.x
        + t.inv_geotransform.g2 * c.y))
    (hx1 : Int.floor (t.inv_geotransform.g0 + t.inv_geotransform.g1 * c.x
        + t.inv_geotransform.g2 * c.y) ≤ (USIZE_MAX : ℤ))
    (hy0 : 0 ≤ Int.floor (t.inv_geotransform.g3 + t.inv_geotransform.g4 * c.x
        + t.inv_geotransform.g5 * c.y))
    (hy1 : Int.floor (t.inv_geotransform.g3 + t.inv_geotransform.g4 * c.x
        + t.inv_geotransform.g5 * c.y) ≤ (USIZE_MAX : ℤ)) :
    t.coordinate_to_pixel c =
      ((Int.floor (t.inv_geotransform.g0 + t.inv_geotransform.g1 * c.x
          + t.inv_geotransform.g2 * c.y)).toNat,
       (Int.floor (t.inv_geotransform.g3 + t.inv_geotransform.g4 * c.x
          + t.inv_geotransform.g5 * c.y)).toNat) := by
  unfold GeoTransformer.coordinate_to_pixel floorAsUsize
  rw [if_neg (by omega), if_neg (by omega), if_neg (by omega), if_neg (by omega)]

/-- C2 witness: the amended theorem applied to the identity transformer at
the in-range world point (7/2, 5/2), which maps to pixel (3, 2). -/
theorem coordinate_to_pixel_floor_in_range_witness :
    idT.coordinate_to_pixel ⟨7/2, 5/2⟩ = (3, 2) := by
  have h := coordinate_to_pixel_floor_in_range idT ⟨7/2, 5/2⟩
    (by norm_num [idT, idGT]) (by norm_num [idT, idGT, USIZE_MAX])
    (by norm_num [idT, idGT]) (by norm_num [idT, idGT, USIZE_MAX])
  rw [h]
  norm_num [idT, idGT]
  decide

/-- C3 counterexample: on the singular geotransform [0, 1, 2, 0, 2, 4] the
construction fails, but the error message is "Could not invert geotransform"
with a capital C, not the "could not invert geotransform" the claim states. -/
theorem try_from_error_message_cex :
    GeoTransformer.try_from ⟨0, 1, 2, 0, 2, 4⟩ =
      Except.error "Could not invert geotransform" ∧
    "Could not invert geotransform" ≠ "could not invert geotransform" := by
  constructor
  · norm_num [GeoTransformer.try_from, GDALInvGeoTransform]
  · decide

/-- C3 amended: try_from fails exactly when the determinant b*f - c*e is zero
(non-finite values do not arise in exact arithmetic), the error message being
"Could not invert geotransform" (capital C); for a nonzero determinant it
returns a transformer. -/
theorem try_from_singular_characterization (gt : GeoTransform) :
    (GeoTransformer.try_from gt = Except.error "Could not invert geotransform"
        ↔ gt.det = 0) ∧
    (gt.det ≠ 0 → ∃ t, GeoTransformer.try_from gt = Except.ok t) := by
  by_cases hd : gt.g1 * gt.g5 - gt.g2 * gt.g4 = 0
  · simp [GeoTransformer.try_from, GDALInvGeoTransform, GeoTransform.det, hd]
  · simp [GeoTransformer.try_from, GDALInvGeoTransform, GeoTransform.det, hd]

/-- C3 witness: the characterization applied to the identity geotransform,
whose determinant 1 is nonzero, so construction succeeds. -/
theorem try_from_singular_characterization_witness :
    (GeoTransformer.try_from idGT = Except.error "Could not invert geotransform"
        ↔ idGT.det = 0) ∧
    (∃ t, GeoTransformer.try_from idGT = Except.ok t) :=
  ⟨(try_from_singular_characterization idGT).1,
   (try_from_singular_characterization idGT).2
     (by norm_num [idGT, GeoTransform.det])⟩

/-- C4: whenever try_from succeeds, the stored forward geotransform is the
input unchanged and the stored inverse satisfies the closed form
bInv = f/det, cInv = -c/det, eInv = -e/det, fInv = b/det,
aInv = -(bInv*a + cInv*d), dInv = -(eInv*a + fInv*d). -/
theorem try_from_inverse_closed_form (gt : GeoTransform) (t : GeoTransformer)
    (h : GeoTransformer.try_from gt = Except.ok t) :
    t.geotransform = gt ∧
    t.inv_geotransform.g1 = gt.g5 / gt.det ∧
    t.inv_geotransform.g2 = -gt.g2 / gt.det ∧
    t.inv_geotransform.g4 = -gt.g4 / gt.det ∧
    t.inv_geotransform.g5 = gt.g1 / gt.det ∧
    t.inv_geotransform.g0
      = -(t.inv_geotransform.g1 * gt.g0 + t.inv_geotransform.g2 * gt.g3) ∧
    t.inv_geotransform.g3
      = -(t.inv_geotransform.g4 * gt.g0 + t.inv_geotransform.g5 * gt.g3) := by
  unfold GeoTransformer.try_from GDALInvGeoTransform at h
  by_cases hd : gt.g1 * gt.g5 - gt.g2 * gt.g4 = 0
  · simp [hd] at h
  · simp only [hd, if_false, ite_false] at h
    injection h with h
    subst h
    simp [GeoTransform.det]

/-- The non-axis-aligned geotransform of spec scenario E. -/
def eGT : GeoTransform := ⟨100, 1/2, 1/10, 200, 1/5, 2/5⟩

/-- The transformer for eGT; its determinant is 9/50 and the inverse
components are computed by the closed form. -/
def eT : GeoTransformer := ⟨eGT, ⟨-1000/9, 20/9, -5/9, -4000/9, -10/9, 25/9⟩⟩

/-- C4 witness: the closed form instantiated at the scenario-E geotransform
[100, 1/2, 1/10, 200, 1/5, 2/5], whose construction succeeds. -/
theorem try_from_inverse_closed_form_witness :
    eT.geotransform = eGT ∧
    eT.inv_geotransform.g1 = eGT.g5 / eGT.det ∧
    eT.inv_geotransform.g2 = -eGT.g2 / eGT.det ∧
    eT.inv_geotransform.g4 = -eGT.g4 / eGT.det ∧
    eT.inv_geotransform.g5 = eGT.g1 / eGT.det ∧
    eT.inv_geotransform.g0
      = -(eT.inv_geotransform.g1 * eGT.g0 + eT.inv_geotransform.g2 * eGT.g3) ∧
    eT.inv_geotransform.g3
      = -(eT.inv_geotransform.g4 * eGT.g0 + eT.inv_geotransform.g5 * eGT.g3) :=
  try_from_inverse_closed_form eGT eT
    (by norm_num [GeoTransformer.try_from, GDALInvGeoTransform, eGT, eT])

/-- Helper: the saturating usize cast is the identity on natural numbers
that fit in usize. -/
theorem floorAsUsize_natCast (n : ℕ) (hn : n ≤ USIZE_MAX) :
    floorAsUsize (n : ℚ) = n := by
  unfold floorAsUsize
  rw [Int.floor_natCast]
  rw [if_neg (by omega), if_neg (by exact_mod_cast not_lt.mpr hn)]
  simp

/-- Helper: a successful try_from forces a nonzero determinant and
determines the transformer completely. -/
theorem try_from_ok_spec (gt : GeoTransform) (t : GeoTransformer)
    (h : GeoTransformer.try_from gt = Except.ok t) :
    gt.g1 * gt.g5 - gt.g2 * gt.g4 ≠ 0 ∧
    t = ⟨gt,
      ⟨-(gt.g5 / (gt.g1 * gt.g5 - gt.g2 * gt.g4) * gt.g0
          + -gt.g2 / (gt.g1 * gt.g5 - gt.g2 * gt.g4) * gt.g3),
       gt.g5 / (gt.g1 * gt.g5 - gt.g2 * gt.g4),
       -gt.g2 / (gt.g1 * gt.g5 - gt.g2 * gt.g4),
       -(-gt.g4 / (gt.g1 * gt.g5 - gt.g2 * gt.g4) * gt.g0
          + gt.g1 / (gt.g1 * gt.g5 - gt.g2 * gt.g4) * gt.g3),
       -gt.g4 / (gt.g1 * gt.g5 - gt.g2 * gt.g4),
       gt.g1 / (gt.g1 * gt.g5 - gt.g2 * gt.g4)⟩⟩ := by
  unfold GeoTransformer.try_from GDALInvGeoTransform at h
  by_cases hd : gt.g1 * gt.g5 - gt.g2 * gt.g4 = 0
  · simp [hd] at h
  · simp only [hd, if_false, ite_false] at h
    injection h with h
    exact ⟨hd, h.symm⟩

/-- C6: for a transformer built by try_from from a geotransform without
rotation or shear (c = e = 0), mapping any pixel (c, r) that fits in usize
through pixel_to_coordinate and back through coordinate_to_pixel returns
(c, r) exactly. -/
theorem round_trip_axis_aligned (gt : GeoTransform) (t : GeoTransformer)
    (hok : GeoTransformer.try_from gt = Except.ok t)
    (hc : gt.g2 = 0) (he : gt.g4 = 0)
    (c r : ℕ) (hcb : c ≤ USIZE_MAX) (hrb : r ≤ USIZE_MAX) :
    t.coordinate_to_pixel (t.pixel_to_coordinate (c, r)) = (c, r) := by
  obtain ⟨hd, rfl⟩ := try_from_ok_spec gt t hok
  obtain ⟨a, b, c2, d, e2, f⟩ := gt
  dsimp only at hc he hd ⊢
  subst hc he
  rw [mul_zero, sub_zero] at hd
  have hb : b ≠ 0 := left_ne_zero_of_mul hd
  have hf : f ≠ 0 := right_ne_zero_of_mul hd
  unfold GeoTransformer.coordinate_to_pixel GeoTransformer.pixel_to_coordinate
  dsimp only
  have hfx : -(f / (b * f - 0 * 0) * a + -0 / (b * f - 0 * 0) * d)
      + f / (b * f - 0 * 0) * (a + b * (c : ℚ) + 0 * (r : ℚ))
      + -0 / (b * f - 0 * 0) * (d + 0 * (c : ℚ) + f * (r : ℚ)) = (c : ℚ) := by
    field_simp
    ring
  have hfy : -(-0 / (b * f - 0 * 0) * a + b / (b * f - 0 * 0) * d)
      + -0 / (b * f - 0 * 0) * (a + b * (c : ℚ) + 0 * (r : ℚ))
      + b / (b * f - 0 * 0) * (d + 0 * (c : ℚ) + f * (r : ℚ)) = (r : ℚ) := by
    field_simp
    ring
  rw [hfx, hfy, floorAsUsize_natCast c hcb, floorAsUsize_natCast r hrb]

/-- C6 witness: round trip of pixel (3, 5) through the identity transformer. -/
theorem round_trip_axis_aligned_witness :
    idT.coordinate_to_pixel (idT.pixel_to_coordinate (3, 5)) = (3, 5) :=
  round_trip_axis_aligned idGT idT
    (by simp [GeoTransformer.try_from, GDALInvGeoTransform, idGT, idT])
    rfl rfl 3 5 (by norm_num [USIZE_MAX]) (by norm_num [USIZE_MAX])

/-- C9 counterexample: for the identity transformer at world point
(-3/2, -5/2) the floored inverse image is (-2, -3); wraparound modulo 2^64
would give (2^64 - 2, 2^64 - 3), but coordinate_to_pixel returns (0, 0). -/
theorem coordinate_to_pixel_wraparound_cex :
    Int.floor (idT.inv_geotransform.g0 + idT.inv_geotransform.g1 * (-3/2 : ℚ)
        + idT.inv_geotransform.g2 * (-5/2 : ℚ)) = -2 ∧
    ((-2 : ℤ) % (2 ^ 64 : ℤ)).toNat = 2 ^ 64 - 2 ∧
    idT.coordinate_to_pixel ⟨-3/2, -5/2⟩ = (0, 0) ∧
    (0 : ℕ) ≠ 2 ^ 64 - 2 := by
  refine ⟨?_, by decide, ?_, by decide⟩
  · norm_num [idT, idGT]
  · simp [GeoTransformer.coordinate_to_pixel, floorAsUsize, idT, idGT]
    norm_num

/-- C9 amended: for every world point, each component whose inverse-affine
image floors to a negative value comes out of coordinate_to_pixel as 0: the
float-to-usize cast saturates negative values to 0 rather than wrapping
around modulo 2^64, and it does so per component, covering points that are
only left of or only above the raster origin. -/
theorem coordinate_to_pixel_negative_saturates (t : GeoTransformer)
    (c : Coordinate) :
    (Int.floor (t.inv_geotransform.g0 + t.inv_geotransform.g1 * c.x
        + t.inv_geotransform.g2 * c.y) < 0 →
      (t.coordinate_to_pixel c).1 = 0) ∧
    (Int.floor (t.inv_geotransform.g3 + t.inv_geotransform.g4 * c.x
        + t.inv_geotransform.g5 * c.y) < 0 →
      (t.coordinate_to_pixel c).2 = 0) := by
  unfold GeoTransformer.coordinate_to_pixel floorAsUsize
  refine ⟨fun hx => ?_, fun hy => ?_⟩ <;> dsimp only
  · rw [if_pos hx]
  · rw [if_pos hy]

/-- C9 witness: the saturation theorem applied to the identity transformer
at the world point (-3/2, 5/2), which lies left of the origin but not above
it: only the column component floors negative and it saturates to 0. -/
theorem coordinate_to_pixel_negative_saturates_witness :
    (idT.coordinate_to_pixel ⟨-3/2, 5/2⟩).1 = 0 :=
  (coordinate_to_pixel_negative_saturates idT ⟨-3/2, 5/2⟩).1
    (by norm_num [idT, idGT])

/-- C10: coordinate_to_pixel is total and its usize casts saturate: a
component whose floored inverse image is negative comes out as 0, and one
whose floored inverse image exceeds USIZE_MAX comes out as USIZE_MAX. -/
theorem coordinate_to_pixel_saturates_total (t : GeoTransformer)
    (c : Coordinate) :
    ((Int.floor (t.inv_geotransform.g0 + t.inv_geotransform.g1 * c.x
          + t.inv_geotransform.g2 * c.y) < 0 →
        (t.coordinate_to_pixel c).1 = 0) ∧
      ((USIZE_MAX : ℤ) < Int.floor (t.inv_geotransform.g0
          + t.inv_geotransform.g1 * c.x + t.inv_geotransform.g2 * c.y) →
        (t.coordinate_to_pixel c).1 = USIZE_MAX)) ∧
    ((Int.floor (t.inv_geotransform.g3 + t.inv_geotransform.g4 * c.x
          + t.inv_geotransform.g5 * c.y) < 0 →
        (t.coordinate_to_pixel c).2 = 0) ∧
      ((USIZE_MAX : ℤ) < Int.floor (t.inv_geotransform.g3
          + t.inv_geotransform.g4 * c.x + t.inv_geotransform.g5 * c.y) →
        (t.coordinate_to_pixel c).2 = USIZE_MAX)) := by
  unfold GeoTransformer.coordinate_to_pixel floorAsUsize
  refine ⟨⟨fun h => ?_, fun h => ?_⟩, fun h => ?_, fun h => ?_⟩ <;> dsimp only
  · rw [if_pos h]
  · rw [if_neg (not_lt.mpr (le_trans (Int.natCast_nonneg USIZE_MAX) h.le)),
      if_pos h]
  · rw [if_pos h]
  · rw [if_neg (not_lt.mpr (le_trans (Int.natCast_nonneg USIZE_MAX) h.le)),
      if_pos h]

/-- C10 witness: at the identity transformer and world point (-2, 2^70),
the first floored component is negative and saturates to 0 while the second
exceeds USIZE_MAX and saturates to USIZE_MAX. -/
theorem coordinate_to_pixel_saturates_total_witness :
    (idT.coordinate_to_pixel ⟨-2, 2 ^ 70⟩).1 = 0 ∧
    (idT.coordinate_to_pixel ⟨-2, 2 ^ 70⟩).2 = USIZE_MAX :=
  ⟨(coordinate_to_pixel_saturates_total idT ⟨-2, 2 ^ 70⟩).1.1
      (by norm_num [idT, idGT]),
   (coordinate_to_pixel_saturates_total idT ⟨-2, 2 ^ 70⟩).2.2
      (by norm_num [idT, idGT, USIZE_MAX])⟩

end GdalGeoTransform
